import Mathlib

/-!
A shallow embedding of the DegreeDash relational data model and the repository
operations of `backend/models/CourseModel.js`, `backend/models/User.js` and
`backend/routes/professor.js`.  The SQLite tables are modelled as lists of
rows in table order; the promise-wrapped query helpers `get`, `all` and `run`
become `List.find?`, `List.filter` (with explicit sorting for `ORDER BY`) and
explicit state passing.  `CURRENT_TIMESTAMP` becomes an explicit `now : Nat`
parameter.  JavaScript `undefined`/SQL `NULL` become `Option`.
-/

namespace DegreeDash

/-- The error taxonomy.  The source throws plain `Error` objects; the
constructors record which class of failure each throw site is. -/
inductive DBError where
  | validation (msg : String)
  | conflict (msg : String)
  | storage (msg : String)
deriving Repr, DecidableEq

/-- JavaScript falsiness of an optional string field: `undefined`, `null` and
the empty string are falsy (the `!field` checks in the source). -/
def strFalsy : Option String → Bool
  | none => true
  | some s => s == ""

/-- ASCII-only lowercase folding, as used by SQLite's default case-insensitive
`LIKE` comparison (only `A`-`Z` fold). -/
def asciiLower (c : Char) : Char :=
  if 65 ≤ c.toNat ∧ c.toNat ≤ 90 then Char.ofNat (c.toNat + 32) else c

/-- SQL `LIKE` pattern matching over character lists: `%` matches any sequence,
`_` matches exactly one character, any other pattern character matches one
character up to ASCII case folding.  The whole string must be consumed. -/
def likeMatch : List Char → List Char → Bool
  | [], s => s.isEmpty
  | p :: ps, s =>
    if p = '%' then s.tails.any (fun t => likeMatch ps t)
    else if p = '_' then
      match s with
      | [] => false
      | _ :: s2 => likeMatch ps s2
    else
      match s with
      | [] => false
      | c :: s2 => (asciiLower c == asciiLower p) && likeMatch ps s2

/-- `field LIKE '%kw%'` on a nullable column: a `NULL` column never matches. -/
def likeField (kw : String) : Option String → Bool
  | none => false
  | some s => likeMatch (('%' :: kw.data) ++ ['%']) s.data

/-- Byte-wise (code-point) comparison of character lists: SQLite's default
`BINARY` collation used by `ORDER BY` on text columns. -/
def charListLe : List Char → List Char → Bool
  | [], _ => true
  | _ :: _, [] => false
  | a :: as, b :: bs =>
    if a.toNat < b.toNat then true
    else if b.toNat < a.toNat then false
    else charListLe as bs

/-- Rounding to one decimal place, as `parseFloat(x.toFixed(1))` does on the
exact value: half-way cases round toward positive infinity. -/
def roundTo1 (q : ℚ) : ℚ := (Int.floor (10 * q + 1 / 2) : ℚ) / 10

/-- A row of the `courses` table. -/
structure Course where
  id : Nat
  course_code : String
  course_name : String
  department : String
  description : Option String
  created_at : Nat
deriving Repr, DecidableEq

/-- A row of the `reviews` table. -/
structure Review where
  id : Nat
  user_id : Nat
  course_id : Nat
  professor_id : Option Nat
  rating : Int
  difficulty : Option Int
  comment : Option String
  would_recommend : Option Bool
  semester_taken : Option String
  year_taken : Option Int
  created_at : Nat
deriving Repr, DecidableEq

/-- A row of the `professors` table. -/
structure Professor where
  id : Nat
  name : String
  department : String
deriving Repr, DecidableEq

/-- A row of the `users` table. -/
structure User where
  id : Nat
  microsoft_id : Option String
  email : Option String
  name : Option String
  avatar_url : Option String
  user_type : String
  graduation_year : Option Int
  major : Option String
  enrollment_year : Option Int
  last_login : Option Nat
  created_at : Nat
  updated_at : Option Nat
deriving Repr, DecidableEq

/-- A row of the `alumni_network` table. -/
structure AlumniRow where
  id : Nat
  user_id : Nat
  current_employer : Option String
  job_title : Option String
  industry : Option String
  location : Option String
  linkedin_url : Option String
  mentorship_available : Bool
  created_at : Nat
  updated_at : Option Nat
deriving Repr, DecidableEq

/-- The database: one list of rows per table (in table order), plus the next
auto-increment key of each table. -/
structure DB where
  courses : List Course
  reviews : List Review
  professors : List Professor
  users : List User
  alumni_network : List AlumniRow
  nextCourseId : Nat
  nextReviewId : Nat
  nextProfessorId : Nat
  nextUserId : Nat
  nextAlumniId : Nat
deriving Repr, DecidableEq

/-- Ascending `ORDER BY course_code` ordering. -/
def codeLe (a b : Course) : Prop :=
  charListLe a.course_code.data b.course_code.data = true

instance : DecidableRel codeLe := fun a b =>
  inferInstanceAs (Decidable (charListLe a.course_code.data b.course_code.data = true))

/-- The `courseData` payload destructured by `Course.create`: absent keys are
`undefined`, modelled as `none`. -/
structure CourseData where
  course_code : Option String
  course_name : Option String
  department : Option String
  description : Option String
deriving Repr, DecidableEq

/-- `SELECT * FROM courses WHERE id = ?` via `db.get`: the first matching row. -/
def Course.findById (db : DB) (id : Nat) : Option Course :=
  db.courses.find? (fun c => c.id == id)

/-- `SELECT * FROM courses WHERE course_code = ?` via `db.get`. -/
def Course.findByCode (db : DB) (courseCode : String) : Option Course :=
  db.courses.find? (fun c => c.course_code == courseCode)

/-- `Course.create`: validate the three required fields (JS falsiness), insert
with `description || null`, then re-read the fresh row by its generated id.
The duplicate-code branch is modelled from the spec: `course_code` is declared
unique across all courses (the table schema is not among the sources), so a
duplicate insert surfaces as a storage-level constraint failure. -/
def Course.create (db : DB) (now : Nat) (d : CourseData) :
    Except DBError (Option Course) × DB :=
  if strFalsy d.course_code || strFalsy d.course_name || strFalsy d.department then
    (Except.error (DBError.validation
      ("Missing required fields: course_code, course_name, and department are required")), db)
  else if db.courses.any (fun c => c.course_code == d.course_code.getD ("")) then
    (Except.error (DBError.storage ("UNIQUE constraint failed: courses.course_code")), db)
  else
    let newCourse : Course :=
      { id := db.nextCourseId
        course_code := d.course_code.getD ("")
        course_name := d.course_name.getD ("")
        department := d.department.getD ("")
        description :=
          match d.description with
          | none => none
          | some s => if s = "" then none else some s
        created_at := now }
    let db2 : DB :=
      { db with courses := db.courses ++ [newCourse], nextCourseId := db.nextCourseId + 1 }
    (Except.ok (Course.findById db2 newCourse.id), db2)

/-- `Course.delete`: refuse while any review references the course, otherwise
delete by id and report whether a row was removed (`result.changes > 0`). -/
def Course.delete (db : DB) (id : Nat) : Except DBError Bool × DB :=
  let reviewCount := (db.reviews.filter (fun r => r.course_id == id)).length
  if 0 < reviewCount then
    (Except.error (DBError.conflict ("Cannot delete course with existing reviews")), db)
  else
    let remaining := db.courses.filter (fun c => !(c.id == id))
    let changes := db.courses.length - remaining.length
    (Except.ok (changes != 0), { db with courses := remaining })

/-- `Course.search`: the three-way `LIKE '%keyword%'` disjunction over code,
name and description, `ORDER BY course_code`. -/
def Course.search (db : DB) (keyword : String) : List Course :=
  List.insertionSort codeLe
    (db.courses.filter (fun c =>
      likeField keyword (some c.course_code) || likeField keyword (some c.course_name) ||
        likeField keyword c.description))

/-- A review row joined (`LEFT JOIN`) with the professor's name. -/
structure JoinedReview where
  review : Review
  professor_name : Option String
deriving Repr, DecidableEq

/-- The record `getCourseWithReviews` returns: the course's fields spread
together with the joined review list and the two derived aggregates. -/
structure CourseWithReviews where
  course : Course
  reviews : List JoinedReview
  review_count : Nat
  average_rating : Option ℚ
deriving Repr, DecidableEq

/-- `ORDER BY r.created_at DESC`. -/
def recentFirst (a b : JoinedReview) : Prop :=
  b.review.created_at ≤ a.review.created_at

instance : DecidableRel recentFirst := fun a b =>
  inferInstanceAs (Decidable (b.review.created_at ≤ a.review.created_at))

/-- The professor-name column of the `LEFT JOIN professors p ON
r.professor_id = p.id`. -/
def joinedProfessorName (db : DB) (r : Review) : Option String :=
  match r.professor_id with
  | none => none
  | some pid => (db.professors.find? (fun p => p.id == pid)).map (fun p => p.name)

/-- The rows of `SELECT r.*, p.name AS professor_name FROM reviews r LEFT
JOIN professors p ON r.professor_id = p.id WHERE r.course_id = ?`, before
the `ORDER BY`. -/
def courseJoinedReviews (db : DB) (courseId : Nat) : List JoinedReview :=
  (db.reviews.filter (fun r => r.course_id == courseId)).map
    (fun r => { review := r, professor_name := joinedProfessorName db r })

/-- `Course.getCourseWithReviews`: fetch the course, fetch its reviews joined
with professor names (newest first), then derive `review_count` and
`average_rating`.  The average is `sum / length` rounded to one decimal, but
it is published through the JS truthiness test `avgRating ? ... : null`, so a
zero mean is also published as `null`. -/
def Course.getCourseWithReviews (db : DB) (courseId : Nat) : Option CourseWithReviews :=
  match Course.findById db courseId with
  | none => none
  | some course =>
    let reviews := List.insertionSort recentFirst (courseJoinedReviews db courseId)
    let sum : Int := reviews.foldl (fun acc jr => acc + jr.review.rating) 0
    let avgRating : Option ℚ :=
      if 0 < reviews.length then some ((sum : ℚ) / (reviews.length : ℚ)) else none
    some
      { course := course
        reviews := reviews
        review_count := reviews.length
        average_rating :=
          avgRating.bind (fun q => if q = 0 then none else some (roundTo1 q)) }

/-- The `userData` payload destructured by `User.create`; `user_type` defaults
to `"current"` and the remaining optional columns to `null`. -/
structure UserData where
  microsoft_id : Option String
  email : Option String
  name : Option String
  avatar_url : Option String
  user_type : Option String
  graduation_year : Option Int
  major : Option String
  enrollment_year : Option Int
deriving Repr, DecidableEq

/-- The identity-provider profile as consumed by `findOrCreateFromMicrosoft`
(`profile.id`, `profile.emails[0].value`, `profile.displayName`,
`profile.photos?.[0]?.value`). -/
structure MsProfile where
  id : String
  email : String
  displayName : String
  avatar_url : Option String
deriving Repr, DecidableEq

/-- `SELECT * FROM users WHERE id = ?`. -/
def User.findById (db : DB) (id : Nat) : Option User :=
  db.users.find? (fun u => u.id == id)

/-- `SELECT * FROM users WHERE microsoft_id = ?` (a `NULL` column never
equals the parameter). -/
def User.findByMicrosoftId (db : DB) (microsoftId : String) : Option User :=
  db.users.find? (fun u => u.microsoft_id == some microsoftId)

/-- `User.create`: insert with `last_login = CURRENT_TIMESTAMP`, then re-read
the fresh row by its generated id. -/
def User.create (db : DB) (now : Nat) (d : UserData) : Option User × DB :=
  let u : User :=
    { id := db.nextUserId
      microsoft_id := d.microsoft_id
      email := d.email
      name := d.name
      avatar_url := d.avatar_url
      user_type := d.user_type.getD ("current")
      graduation_year := d.graduation_year
      major := d.major
      enrollment_year := d.enrollment_year
      last_login := some now
      created_at := now
      updated_at := none }
  let db2 : DB := { db with users := db.users ++ [u], nextUserId := db.nextUserId + 1 }
  (User.findById db2 u.id, db2)

/-- `UPDATE users SET last_login = CURRENT_TIMESTAMP WHERE id = ?`. -/
def User.updateLastLogin (db : DB) (now : Nat) (id : Nat) : DB :=
  { db with users := db.users.map (fun u =>
      if u.id == id then { u with last_login := some now } else u) }

/-- `User.findOrCreateFromMicrosoft`: look up by the external id; create when
absent, otherwise touch `last_login` and return the (pre-update) row. -/
def User.findOrCreateFromMicrosoft (db : DB) (now : Nat) (profile : MsProfile)
    (userType : String) : Option User × DB :=
  match User.findByMicrosoftId db profile.id with
  | none =>
    User.create db now
      { microsoft_id := some profile.id
        email := some profile.email
        name := some profile.displayName
        avatar_url := profile.avatar_url
        user_type := some userType
        graduation_year := none
        major := none
        enrollment_year := none }
  | some user => (some user, User.updateLastLogin db now user.id)

/-- `User.updateUserType`: set `user_type` and `graduation_year` (the latter
defaults to `null` when the caller omits it) and touch `updated_at`. -/
def User.updateUserType (db : DB) (now : Nat) (userId : Nat) (userType : String)
    (graduationYear : Option Int) : Option User × DB :=
  let db2 : DB :=
    { db with users := db.users.map (fun u =>
        if u.id == userId then
          { u with user_type := userType, graduation_year := graduationYear,
                   updated_at := some now }
        else u) }
  (User.findById db2 userId, db2)

/-- The `alumniData` payload of `updateAlumniNetwork`;
`mentorship_available` defaults to `false` at destructuring. -/
structure AlumniData where
  graduation_year : Option Int
  current_employer : Option String
  job_title : Option String
  industry : Option String
  location : Option String
  linkedin_url : Option String
  mentorship_available : Option Bool
deriving Repr, DecidableEq

/-- `User.updateAlumniNetwork`: first force `user_type = 'alumni'` (with the
payload's `graduation_year`), then check-then-update-or-insert the
`alumni_network` row keyed by `user_id`, and re-read it. -/
def User.updateAlumniNetwork (db : DB) (now : Nat) (userId : Nat) (d : AlumniData) :
    Option AlumniRow × DB :=
  let db1 := (User.updateUserType db now userId ("alumni") d.graduation_year).2
  let existing := db1.alumni_network.find? (fun a => a.user_id == userId)
  let db2 : DB :=
    match existing with
    | some _ =>
      { db1 with alumni_network := db1.alumni_network.map (fun a =>
          if a.user_id == userId then
            { a with current_employer := d.current_employer
                     job_title := d.job_title
                     industry := d.industry
                     location := d.location
                     linkedin_url := d.linkedin_url
                     mentorship_available := d.mentorship_available.getD false
                     updated_at := some now }
          else a) }
    | none =>
      { db1 with
        alumni_network := db1.alumni_network ++
          [{ id := db1.nextAlumniId
             user_id := userId
             current_employer := d.current_employer
             job_title := d.job_title
             industry := d.industry
             location := d.location
             linkedin_url := d.linkedin_url
             mentorship_available := d.mentorship_available.getD false
             created_at := now
             updated_at := none }]
        nextAlumniId := db1.nextAlumniId + 1 }
  (db2.alumni_network.find? (fun a => a.user_id == userId), db2)

/-- `User.getAlumniNetwork`: `users LEFT JOIN alumni_network` restricted to
`u.id = ? AND u.user_type = 'alumni'`, modelled relationally as the user row
paired with its optional profile row. -/
def User.getAlumniNetwork (db : DB) (userId : Nat) : Option (User × Option AlumniRow) :=
  match db.users.find? (fun u => u.id == userId && u.user_type == "alumni") with
  | none => none
  | some u => some (u, db.alumni_network.find? (fun a => a.user_id == userId))

/-- The `department || 'Unknown'` defaulting of `POST /professors`. -/
def deptDefault : Option String → String
  | none => "Unknown"
  | some s => if s = "" then "Unknown" else s

/-- `POST /professors`: reject a falsy name, otherwise
`INSERT OR IGNORE INTO professors (name, department)`.  The ignore branch is
modelled from the spec: `(name, department)` pairs are unique (the table
schema is not among the sources), so a duplicate insert is a silent no-op. -/
def createProfessor (db : DB) (nm : Option String) (department : Option String) :
    Except DBError DB :=
  if strFalsy nm then Except.error (DBError.validation ("Name is required"))
  else
    let dept := deptDefault department
    if db.professors.any (fun pr => pr.name == nm.getD ("") && pr.department == dept) then
      Except.ok db
    else
      Except.ok
        { db with
          professors := db.professors ++
            [{ id := db.nextProfessorId, name := nm.getD (""), department := dept }]
          nextProfessorId := db.nextProfessorId + 1 }

/-- A keyword (as a character list) free of the `LIKE` wildcards. -/
def noWild (l : List Char) : Prop := ∀ ch ∈ l, ch ≠ '%' ∧ ch ≠ '_'

/-- Follows the spec's words, for comparison with the source's `LIKE`
semantics: the keyword appears case-insensitively as a substring of the
field; an absent field matches nothing. -/
def specSubstringMatch (kw : String) : Option String → Prop
  | none => False
  | some s => kw.data.map asciiLower <:+: s.data.map asciiLower

/-- An empty database, the base of the concrete test stores below. -/
def emptyDB : DB :=
  { courses := [], reviews := [], professors := [], users := [], alumni_network := []
    nextCourseId := 1, nextReviewId := 1, nextProfessorId := 1, nextUserId := 1
    nextAlumniId := 1 }

/-- A concrete course row. -/
def sampleCourse (i : Nat) (code nm dept : String) (descr : Option String) : Course :=
  { id := i, course_code := code, course_name := nm, department := dept
    description := descr, created_at := 0 }

/-- A concrete review row. -/
def sampleReview (i cid : Nat) (rat : Int) (t : Nat) : Review :=
  { id := i, user_id := 1, course_id := cid, professor_id := none, rating := rat
    difficulty := none, comment := none, would_recommend := none, semester_taken := none
    year_taken := none, created_at := t }

/-- A store with one course that has a single rating-0 review and one course
with no reviews at all. -/
def dbRatings : DB :=
  { emptyDB with
    courses := [sampleCourse 1 ("COMP 1000") ("Algorithms") ("COMP") none,
                sampleCourse 2 ("ARTS 1000") ("Painting") ("ARTS") none]
    reviews := [sampleReview 1 1 0 10]
    nextCourseId := 3
    nextReviewId := 2 }

/-- A store with one course referenced by one review, for the delete guard. -/
def dbDelete : DB :=
  { emptyDB with
    courses := [sampleCourse 1 ("COMP 1000") ("Algorithms") ("COMP") none]
    reviews := [sampleReview 1 1 5 10]
    nextCourseId := 2
    nextReviewId := 2 }

/-- A store with a single course none of whose text fields contains a percent
sign, for the search-wildcard counterexample. -/
def dbSearch : DB :=
  { emptyDB with
    courses := [sampleCourse 1 ("A") ("B") ("D") none]
    nextCourseId := 2 }

/-- A concrete identity-provider profile. -/
def sampleProfile : MsProfile :=
  { id := "ms-1", email := "a@b.c", displayName := "Ada", avatar_url := none }

/-- A concrete alumni-network payload. -/
def sampleAlumniData (emp : Option String) (gy : Option Int) : AlumniData :=
  { graduation_year := gy, current_employer := emp, job_title := none, industry := none
    location := none, linkedin_url := none, mentorship_available := none }

/-- A concrete user row with id 1 and the given classification. -/
def sampleUser (ut : String) : User :=
  { id := 1, microsoft_id := some ("ms-1"), email := some ("a@b.c")
    name := some ("Ada"), avatar_url := none, user_type := ut
    graduation_year := some 2020, major := none, enrollment_year := none
    last_login := none, created_at := 0, updated_at := none }

/-- A store with one `current` user, for the alumni-reclassification witness. -/
def dbOneUser : DB := { emptyDB with users := [sampleUser ("current")], nextUserId := 2 }

/-- A store with one `alumni` user and no alumni-network row. -/
def dbOneAlumni : DB := { emptyDB with users := [sampleUser ("alumni")], nextUserId := 2 }

/-- A fully valid course-creation payload. -/
def sampleCourseData : CourseData :=
  { course_code := some ("COMP 3030"), course_name := some ("Algs")
    department := some ("COMP"), description := none }

/-- The course row `Course.create` inserts for payload `d` (the body of the
`newCourse` binding), named so the C7 computation can be stated compactly. -/
def createdCourse (db : DB) (now : Nat) (d : CourseData) : Course :=
  { id := db.nextCourseId
    course_code := d.course_code.getD ("")
    course_name := d.course_name.getD ("")
    department := d.department.getD ("")
    description :=
      match d.description with
      | none => none
      | some s => if s = "" then none else some s
    created_at := now }

/-- The user row that `findOrCreateFromMicrosoft` inserts (via `User.create`)
for a profile whose external id is not yet known; names the row so the C4
computation can be stated compactly. -/
def msCreatedUser (db : DB) (t1 : Nat) (p : MsProfile) (ut : String) : User :=
  { id := db.nextUserId, microsoft_id := some p.id, email := some p.email
    name := some p.displayName, avatar_url := p.avatar_url, user_type := ut
    graduation_year := none, major := none, enrollment_year := none
    last_login := some t1, created_at := t1, updated_at := none }

theorem charListLe_cons_iff (x y : Char) (xs ys : List Char) :
    charListLe (x :: xs) (y :: ys) = true ↔
      x.toNat < y.toNat ∨ (x.toNat = y.toNat ∧ charListLe xs ys = true) := by
  simp only [charListLe]
  by_cases h1 : x.toNat < y.toNat
  · simp [h1]
  · by_cases h2 : y.toNat < x.toNat
    · constructor
      · intro h
        simp [h1, h2] at h
      · rintro (h | ⟨h, _⟩) <;> omega
    · have hxy : x.toNat = y.toNat := by omega
      simp [h1, h2, hxy]

theorem charListLe_total : ∀ a b : List Char, charListLe a b = true ∨ charListLe b a = true := by
  intro a
  induction a with
  | nil => intro b; exact Or.inl rfl
  | cons x xs ih =>
    intro b
    cases b with
    | nil => exact Or.inr rfl
    | cons y ys =>
      rw [charListLe_cons_iff, charListLe_cons_iff]
      rcases Nat.lt_trichotomy x.toNat y.toNat with h | h | h
      · exact Or.inl (Or.inl h)
      · rcases ih ys with h2 | h2
        · exact Or.inl (Or.inr ⟨h, h2⟩)
        · exact Or.inr (Or.inr ⟨h.symm, h2⟩)
      · exact Or.inr (Or.inl h)

theorem charListLe_trans :
    ∀ a b c : List Char, charListLe a b = true → charListLe b c = true →
      charListLe a c = true := by
  intro a
  induction a with
  | nil => intro b c _ _; rfl
  | cons x xs ih =>
    intro b c hab hbc
    cases b with
    | nil => simp [charListLe] at hab
    | cons y ys =>
      cases c with
      | nil => simp [charListLe] at hbc
      | cons z zs =>
        rw [charListLe_cons_iff] at hab hbc ⊢
        rcases hab with h1 | ⟨h1, hrec1⟩
        · rcases hbc with h2 | ⟨h2, _⟩
          · exact Or.inl (by omega)
          · exact Or.inl (by omega)
        · rcases hbc with h2 | ⟨h2, hrec2⟩
          · exact Or.inl (by omega)
          · exact Or.inr ⟨by omega, ih ys zs hrec1 hrec2⟩

theorem find?_and_of_find? {α : Type} (p q : α → Bool) :
    ∀ (l : List α) (u : α), l.find? p = some u → q u = true →
      l.find? (fun x => p x && q x) = some u := by
  intro l
  induction l with
  | nil => intro u h _; simp at h
  | cons a l ih =>
    intro u h hq
    cases hpa : p a with
    | true =>
      rw [List.find?_cons] at h
      simp only [hpa] at h
      have hau : a = u := by injection h
      subst hau
      rw [List.find?_cons]
      simp [hpa, hq]
    | false =>
      rw [List.find?_cons] at h
      simp only [hpa] at h
      rw [List.find?_cons]
      simp only [hpa, Bool.false_and]
      exact ih u h hq

theorem length_filter_map_ite {α : Type} (p : α → Bool) (g : α → α)
    (hg : ∀ a, p a = true → p (g a) = true) (l : List α) :
    ((l.map (fun a => if p a then g a else a)).filter p).length = (l.filter p).length := by
  induction l with
  | nil => rfl
  | cons a l ih =>
    by_cases h : p a = true
    · simp [h, hg a h, List.filter_cons, ih]
    · simp only [Bool.not_eq_true] at h
      simp [List.filter_cons, h, ih]

theorem likeMatch_lit (lit : List Char) (hw : noWild lit) :
    ∀ s : List Char, likeMatch (lit ++ ['%']) s = true ↔
      lit.map asciiLower <+: s.map asciiLower := by
  induction lit with
  | nil =>
    intro s
    constructor
    · intro _
      simp only [List.map_nil]
      exact List.nil_prefix
    · intro _
      show likeMatch ['%'] s = true
      rw [show likeMatch ['%'] s = s.tails.any (fun t => likeMatch [] t) from rfl]
      rw [List.any_eq_true]
      exact ⟨[], (List.mem_tails _ _).mpr ⟨s, by simp⟩, rfl⟩
  | cons ch lit ih =>
    intro s
    have hch : ch ≠ '%' ∧ ch ≠ '_' := hw ch (by simp)
    have hw' : noWild lit := fun c hc => hw c (by simp [hc])
    cases s with
    | nil =>
      simp [likeMatch, hch.1, hch.2, List.prefix_nil]
    | cons c s =>
      rw [List.cons_append]
      rw [show likeMatch (ch :: (lit ++ ['%'])) (c :: s) =
        ((asciiLower c == asciiLower ch) && likeMatch (lit ++ ['%']) s) from by
          simp [likeMatch, hch.1, hch.2]]
      rw [Bool.and_eq_true, beq_iff_eq, ih hw' s]
      simp only [List.map_cons, List.cons_prefix_cons]
      constructor
      · rintro ⟨h1, h2⟩; exact ⟨h1.symm, h2⟩
      · rintro ⟨h1, h2⟩; exact ⟨h1.symm, h2⟩

theorem likeMatch_infix (lit : List Char) (hw : noWild lit) (s : List Char) :
    likeMatch (('%' :: lit) ++ ['%']) s = true ↔
      lit.map asciiLower <:+: s.map asciiLower := by
  rw [show likeMatch (('%' :: lit) ++ ['%']) s =
    s.tails.any (fun t => likeMatch (lit ++ ['%']) t) from rfl]
  rw [List.any_eq_true]
  constructor
  · rintro ⟨t, ht, hlm⟩
    rw [List.mem_tails _ _] at ht
    rw [likeMatch_lit lit hw t] at hlm
    exact List.infix_iff_prefix_suffix.mpr ⟨t.map asciiLower, hlm, ht.map asciiLower⟩
  · intro hinf
    obtain ⟨t', hpre, hsuf⟩ := List.infix_iff_prefix_suffix.mp hinf
    obtain ⟨u, hu⟩ := hsuf
    obtain ⟨l1, l2, hs, _, hm2⟩ := List.map_eq_append_iff.mp hu.symm
    refine ⟨l2, (List.mem_tails _ _).mpr ⟨l1, hs.symm⟩, ?_⟩
    rw [likeMatch_lit lit hw l2, hm2]
    exact hpre

theorem likeField_eq_spec (kw : String) (hw : noWild kw.data) (f : Option String) :
    likeField kw f = true ↔ specSubstringMatch kw f := by
  cases f with
  | none => simp [likeField, specSubstringMatch]
  | some s =>
    simp only [likeField, specSubstringMatch]
    exact likeMatch_infix kw.data hw s.data

/-- C5: for every fields payload in which `course_code`, `course_name` or
`department` is missing or empty, `Course.create` fails with a
`ValidationError` and adds no new course row: the failed call leaves the
store unchanged. -/
theorem C5_create_missing_fields (db : DB) (now : Nat) (d : CourseData)
    (h : strFalsy d.course_code = true ∨ strFalsy d.course_name = true ∨
      strFalsy d.department = true) :
    (Course.create db now d).1 = Except.error (DBError.validation
      ("Missing required fields: course_code, course_name, and department are required"))
    ∧ (Course.create db now d).2 = db := by
  have hcond :
      (strFalsy d.course_code || strFalsy d.course_name || strFalsy d.department) = true := by
    rcases h with h | h | h <;> simp [h]
  constructor <;> simp [Course.create, hcond]

/-- Witness for C5: creating a course with `course_code` missing from an
empty store fails with the validation error and leaves the store empty. -/
theorem C5_witness :
    (Course.create emptyDB 0
      { course_code := none, course_name := some ("X"), department := some ("Y")
        description := none }).1 = Except.error (DBError.validation
      ("Missing required fields: course_code, course_name, and department are required"))
    ∧ (Course.create emptyDB 0
      { course_code := none, course_name := some ("X"), department := some ("Y")
        description := none }).2 = emptyDB :=
  C5_create_missing_fields emptyDB 0
    { course_code := none, course_name := some ("X"), department := some ("Y")
      description := none } (Or.inl (by decide))

/-- C3 (amended): for every course id referenced by at least one review,
`Course.delete` fails with a `ConflictError` carrying the message
"Cannot delete course with existing reviews" (capital C, as thrown by the
source) and leaves every row unchanged. -/
theorem C3_delete_with_reviews (db : DB) (cid : Nat)
    (h : ∃ r ∈ db.reviews, r.course_id = cid) :
    (Course.delete db cid).1 = Except.error
      (DBError.conflict ("Cannot delete course with existing reviews"))
    ∧ (Course.delete db cid).2 = db := by
  obtain ⟨r, hr, hcid⟩ := h
  have hmem : r ∈ db.reviews.filter (fun x => x.course_id == cid) :=
    List.mem_filter.mpr ⟨hr, by simp [hcid]⟩
  have hpos : 0 < (db.reviews.filter (fun x => x.course_id == cid)).length :=
    List.length_pos_of_mem hmem
  constructor <;> simp [Course.delete, hpos]

/-- Counterexample for C3 as frozen: the message the source throws is
"Cannot delete course with existing reviews", not the claim's lowercase
"cannot delete course with existing reviews". -/
theorem C3_message_counterexample :
    (Course.delete dbDelete 1).1 = Except.error
      (DBError.conflict ("Cannot delete course with existing reviews"))
    ∧ DBError.conflict ("Cannot delete course with existing reviews") ≠
      DBError.conflict ("cannot delete course with existing reviews") := by
  constructor
  · rfl
  · decide

/-- Witness for C3: deleting the reviewed course of `dbDelete` fails with
the conflict error and leaves the store unchanged. -/
theorem C3_witness :
    (Course.delete dbDelete 1).1 = Except.error
      (DBError.conflict ("Cannot delete course with existing reviews"))
    ∧ (Course.delete dbDelete 1).2 = dbDelete :=
  C3_delete_with_reviews dbDelete 1 (by decide)

theorem updateAlumniNetwork_users (db : DB) (now uid : Nat) (d : AlumniData) :
    (User.updateAlumniNetwork db now uid d).2.users =
      db.users.map (fun x =>
        if x.id == uid then
          { x with user_type := "alumni", graduation_year := d.graduation_year,
                   updated_at := some now }
        else x) := by
  unfold User.updateAlumniNetwork
  cases hfind : db.alumni_network.find? (fun a => a.user_id == uid) <;>
    simp [User.updateUserType, hfind]

/-- C9: `updateAlumniNetwork` always rewrites the user's `user_type` to
`"alumni"` and rewrites the user's `graduation_year` to the payload's value;
when the payload omits `graduation_year`, the stored value is overwritten
with `null`, even when the call merely edits an existing alumni profile. -/
theorem C9_alumni_overwrite (db : DB) (now : Nat) (uid : Nat) (d : AlumniData) :
    ∀ u ∈ (User.updateAlumniNetwork db now uid d).2.users,
      u.id = uid → u.user_type = "alumni" ∧ u.graduation_year = d.graduation_year := by
  intro u hu huid
  rw [updateAlumniNetwork_users] at hu
  obtain ⟨x, hx, hfx⟩ := List.mem_map.mp hu
  by_cases hxid : x.id = uid
  · rw [if_pos (by simp [hxid])] at hfx
    rw [← hfx]
    exact ⟨rfl, rfl⟩
  · rw [if_neg (by simp [hxid])] at hfx
    rw [← hfx] at huid
    exact absurd huid hxid

/-- Witness for C9: reclassifying the `current` user of `dbOneUser` with a
payload that omits `graduation_year` leaves the user `alumni` with a null
`graduation_year`. -/
theorem C9_witness :
    ∃ u, u ∈ (User.updateAlumniNetwork dbOneUser 5 1 (sampleAlumniData none none)).2.users
      ∧ u.user_type = "alumni" ∧ u.graduation_year = none :=
  ⟨{ sampleUser ("current") with user_type := "alumni", graduation_year := none,
                                 updated_at := some 5 },
    by decide,
    C9_alumni_overwrite dbOneUser 5 1 (sampleAlumniData none none)
      { sampleUser ("current") with user_type := "alumni", graduation_year := none,
                                    updated_at := some 5 }
      (by decide) rfl⟩

/-- C10: an `alumni` user with no alumni-network row is still returned by
`getAlumniNetwork` (left join, profile fields absent), while a non-alumni
user yields an absent result regardless of the `alumni_network` table. -/
theorem C10_alumni_left_join (db : DB) (uid : Nat) :
    (∀ u, db.users.find? (fun x => x.id == uid) = some u → u.user_type = "alumni" →
      (∀ a ∈ db.alumni_network, a.user_id ≠ uid) →
      User.getAlumniNetwork db uid = some (u, none))
    ∧ ((∀ x ∈ db.users, x.id = uid → x.user_type ≠ "alumni") →
      User.getAlumniNetwork db uid = none) := by
  constructor
  · intro u hfind htype hnoprof
    have h1 : db.users.find? (fun x => x.id == uid && x.user_type == "alumni") = some u :=
      find?_and_of_find? _ _ db.users u hfind (by simp [htype])
    have h2 : db.alumni_network.find? (fun a => a.user_id == uid) = none :=
      List.find?_eq_none.mpr (fun a ha => by simp [hnoprof a ha])
    simp [User.getAlumniNetwork, h1, h2]
  · intro hall
    have h1 : db.users.find? (fun x => x.id == uid && x.user_type == "alumni") = none := by
      refine List.find?_eq_none.mpr (fun x hx => ?_)
      simp only [Bool.and_eq_true, beq_iff_eq, not_and]
      intro hid hty
      exact hall x hx hid hty
    simp [User.getAlumniNetwork, h1]

/-- Witness for C10: the profile-less alumni of `dbOneAlumni` is returned
with an absent profile, and the `current` user of `dbOneUser` is absent. -/
theorem C10_witness :
    User.getAlumniNetwork dbOneAlumni 1 = some (sampleUser ("alumni"), none)
    ∧ User.getAlumniNetwork dbOneUser 1 = none :=
  ⟨(C10_alumni_left_join dbOneAlumni 1).1 (sampleUser ("alumni")) (by decide) rfl (by decide),
   (C10_alumni_left_join dbOneUser 1).2 (by decide)⟩

theorem updateAlumniNetwork_alumni_count (db : DB) (now uid : Nat) (d : AlumniData)
    (h : (db.alumni_network.filter (fun a => a.user_id == uid)).length ≤ 1) :
    ((User.updateAlumniNetwork db now uid d).2.alumni_network.filter
      (fun a => a.user_id == uid)).length = 1 := by
  unfold User.updateAlumniNetwork
  cases hfind : db.alumni_network.find? (fun a => a.user_id == uid) with
  | none =>
    have h0 : db.alumni_network.filter (fun a => a.user_id == uid) = [] :=
      List.filter_eq_nil_iff.mpr (fun a ha => List.find?_eq_none.mp hfind a ha)
    simp [User.updateUserType, hfind, List.filter_append, h0]
  | some a0 =>
    have hmem0 : a0 ∈ db.alumni_network := List.mem_of_find?_eq_some hfind
    have hpa : (a0.user_id == uid) = true :=
      @List.find?_some AlumniRow (fun a => a.user_id == uid) a0 db.alumni_network hfind
    have hmem : a0 ∈ db.alumni_network.filter (fun a => a.user_id == uid) :=
      List.mem_filter.mpr ⟨hmem0, hpa⟩
    have hpos : 0 < (db.alumni_network.filter (fun a => a.user_id == uid)).length :=
      List.length_pos_of_mem hmem
    have hkeep :
        ((db.alumni_network.map (fun a =>
          if a.user_id == uid then
            { a with current_employer := d.current_employer, job_title := d.job_title,
                     industry := d.industry, location := d.location,
                     linkedin_url := d.linkedin_url,
                     mentorship_available := d.mentorship_available.getD false,
                     updated_at := some now }
          else a)).filter (fun a => a.user_id == uid)).length
          = (db.alumni_network.filter (fun a => a.user_id == uid)).length :=
      length_filter_map_ite (fun a => a.user_id == uid)
        (fun a =>
          { a with current_employer := d.current_employer, job_title := d.job_title,
                   industry := d.industry, location := d.location,
                   linkedin_url := d.linkedin_url,
                   mentorship_available := d.mentorship_available.getD false,
                   updated_at := some now })
        (fun a ha => ha) db.alumni_network
    simp only [User.updateUserType, hfind]
    rw [hkeep]
    omega

theorem updateAlumniNetwork_employer (db : DB) (now uid : Nat) (d : AlumniData) :
    ∀ a ∈ (User.updateAlumniNetwork db now uid d).2.alumni_network,
      a.user_id = uid → a.current_employer = d.current_employer := by
  intro a ha hauid
  unfold User.updateAlumniNetwork at ha
  revert ha
  cases hfind : db.alumni_network.find? (fun a => a.user_id == uid) with
  | none =>
    intro ha
    simp only [User.updateUserType, hfind] at ha
    simp only [List.mem_append, List.mem_singleton] at ha
    rcases ha with ha | ha
    · have := List.find?_eq_none.mp hfind a ha
      simp [hauid] at this
    · rw [ha]
  | some a0 =>
    intro ha
    simp only [User.updateUserType, hfind] at ha
    obtain ⟨x, hx, hfx⟩ := List.mem_map.mp ha
    by_cases hxid : x.user_id = uid
    · rw [if_pos (by simp [hxid])] at hfx
      rw [← hfx]
    · rw [if_neg (by simp [hxid])] at hfx
      rw [← hfx] at hauid
      exact absurd hauid hxid

theorem updateAlumniNetwork_fold (uid : Nat) (calls : List (Nat × AlumniData)) :
    ∀ db : DB, (db.alumni_network.filter (fun a => a.user_id == uid)).length ≤ 1 →
      ((calls.foldl (fun s c => (User.updateAlumniNetwork s c.1 uid c.2).2) db).alumni_network.filter
        (fun a => a.user_id == uid)).length ≤ 1 := by
  induction calls with
  | nil => intro db h; exact h
  | cons c cs ih =>
    intro db h
    rw [List.foldl_cons]
    exact ih _ (le_of_eq (updateAlumniNetwork_alumni_count db c.1 uid c.2 h))

/-- C2: starting from a store satisfying the at-most-one-profile-row
invariant, two sequential `updateAlumniNetwork` calls for the same user
leave exactly one `alumni_network` row for that `user_id`, holding the
second payload's `current_employer`; and no sequence of sequential calls
ever creates a duplicate row for that `user_id`. -/
theorem C2_alumni_upsert (db : DB) (t1 t2 : Nat) (uid : Nat) (d1 d2 : AlumniData)
    (hinv : (db.alumni_network.filter (fun a => a.user_id == uid)).length ≤ 1) :
    (((User.updateAlumniNetwork (User.updateAlumniNetwork db t1 uid d1).2 t2 uid d2).2).alumni_network.filter
        (fun a => a.user_id == uid)).length = 1
    ∧ (∀ a ∈ ((User.updateAlumniNetwork (User.updateAlumniNetwork db t1 uid d1).2 t2 uid d2).2).alumni_network,
        a.user_id = uid → a.current_employer = d2.current_employer)
    ∧ (∀ calls : List (Nat × AlumniData),
        ((calls.foldl (fun s c => (User.updateAlumniNetwork s c.1 uid c.2).2) db).alumni_network.filter
          (fun a => a.user_id == uid)).length ≤ 1) :=
  ⟨updateAlumniNetwork_alumni_count _ t2 uid d2
      (le_of_eq (updateAlumniNetwork_alumni_count db t1 uid d1 hinv)),
   updateAlumniNetwork_employer _ t2 uid d2,
   fun calls => updateAlumniNetwork_fold uid calls db hinv⟩

/-- Witness for C2: two upserts for user 1 on the empty store leave exactly
one profile row, holding the second call's employer. -/
theorem C2_witness :
    (((User.updateAlumniNetwork
        (User.updateAlumniNetwork emptyDB 1 1 (sampleAlumniData (some ("ACME")) none)).2
        2 1 (sampleAlumniData (some ("Globex")) none)).2).alumni_network.filter
        (fun a => a.user_id == 1)).length = 1
    ∧ (∀ a ∈ ((User.updateAlumniNetwork
        (User.updateAlumniNetwork emptyDB 1 1 (sampleAlumniData (some ("ACME")) none)).2
        2 1 (sampleAlumniData (some ("Globex")) none)).2).alumni_network,
        a.user_id = 1 → a.current_employer = some ("Globex"))
    ∧ (∀ calls : List (Nat × AlumniData),
        ((calls.foldl (fun s c => (User.updateAlumniNetwork s c.1 1 c.2).2) emptyDB).alumni_network.filter
          (fun a => a.user_id == 1)).length ≤ 1) :=
  C2_alumni_upsert emptyDB 1 2 1 (sampleAlumniData (some ("ACME")) none)
    (sampleAlumniData (some ("Globex")) none) (by decide)

/-- C8: professor creation is idempotent on the `(name, department)` pair: a
duplicate insert is a silent no-op (no error), exactly one row with the pair
exists afterwards, and an omitted department defaults to "Unknown". -/
theorem C8_professor_idempotent (db : DB) (nm : String) (dOpt : Option String)
    (hnm : nm ≠ "")
    (hinv : (db.professors.filter
      (fun pr => pr.name == nm && pr.department == deptDefault dOpt)).length ≤ 1) :
    ∃ db1, createProfessor db (some nm) dOpt = Except.ok db1
      ∧ createProfessor db1 (some nm) dOpt = Except.ok db1
      ∧ (db1.professors.filter
          (fun pr => pr.name == nm && pr.department == deptDefault dOpt)).length = 1
      ∧ createProfessor db1 (some nm) none = createProfessor db1 (some nm) (some ("Unknown")) := by
  have hfal : strFalsy (some nm) = false := by simp [strFalsy, hnm]
  have hdef : ∀ db2 : DB, createProfessor db2 (some nm) none =
      createProfessor db2 (some nm) (some ("Unknown")) := fun db2 => rfl
  cases hany : db.professors.any (fun pr => pr.name == nm && pr.department == deptDefault dOpt) with
  | true =>
    refine ⟨db, ?_, ?_, ?_, hdef db⟩
    · simp [createProfessor, hfal, hany]
    · simp [createProfessor, hfal, hany]
    · obtain ⟨pr, hpr, hp⟩ := List.any_eq_true.mp hany
      have hpos : 0 < (db.professors.filter
          (fun pr => pr.name == nm && pr.department == deptDefault dOpt)).length :=
        List.length_pos_of_mem (List.mem_filter.mpr ⟨hpr, hp⟩)
      omega
  | false =>
    refine ⟨{ db with
        professors := db.professors ++
          [{ id := db.nextProfessorId, name := nm, department := deptDefault dOpt }]
        nextProfessorId := db.nextProfessorId + 1 }, ?_, ?_, ?_, hdef _⟩
    · simp [createProfessor, hfal, hany]
    · have hany1 : (db.professors ++
          [{ id := db.nextProfessorId, name := nm, department := deptDefault dOpt : Professor }]).any
          (fun pr => pr.name == nm && pr.department == deptDefault dOpt) = true :=
        List.any_eq_true.mpr ⟨{ id := db.nextProfessorId, name := nm, department := deptDefault dOpt },
          by simp, by simp⟩
      simp [createProfessor, hfal, hany1]
    · have h0 : db.professors.filter
          (fun pr => pr.name == nm && pr.department == deptDefault dOpt) = [] := by
        refine List.filter_eq_nil_iff.mpr (fun pr hpr hp => ?_)
        have hcontr : (db.professors.any
            (fun q => q.name == nm && q.department == deptDefault dOpt)) = true :=
          List.any_eq_true.mpr ⟨pr, hpr, hp⟩
        rw [hany] at hcontr
        exact Bool.false_ne_true hcontr
      simp [List.filter_append, h0]

/-- Witness for C8: creating "Dr. Jane Lee" in "COMP" on the empty store. -/
theorem C8_witness :
    ∃ db1, createProfessor emptyDB (some ("Dr. Jane Lee")) (some ("COMP")) = Except.ok db1
      ∧ createProfessor db1 (some ("Dr. Jane Lee")) (some ("COMP")) = Except.ok db1
      ∧ (db1.professors.filter
          (fun pr => pr.name == "Dr. Jane Lee" && pr.department == deptDefault (some ("COMP")))).length = 1
      ∧ createProfessor db1 (some ("Dr. Jane Lee")) none =
          createProfessor db1 (some ("Dr. Jane Lee")) (some ("Unknown")) :=
  C8_professor_idempotent emptyDB ("Dr. Jane Lee") (some ("COMP")) (by decide) (by decide)

/-- C4: `findOrCreateFromMicrosoft` called twice with the same external id
(under a monotone clock, on a store where the id is fresh and row ids are
below the auto-increment counter) returns the same user row both times,
leaves exactly one user row with that `microsoft_id`, stores `last_login`
equal to the second call's timestamp (≥ the first call's), and changes
nothing else of the record. -/
theorem C4_findOrCreate_idempotent (db : DB) (p : MsProfile) (ut : String) (t1 t2 : Nat)
    (hmono : t1 ≤ t2)
    (hfresh : ∀ u ∈ db.users, u.microsoft_id ≠ some p.id)
    (hids : ∀ u ∈ db.users, u.id < db.nextUserId) :
    ∃ u1,
      (User.findOrCreateFromMicrosoft db t1 p ut).1 = some u1
      ∧ (User.findOrCreateFromMicrosoft
          (User.findOrCreateFromMicrosoft db t1 p ut).2 t2 p ut).1 = some u1
      ∧ (((User.findOrCreateFromMicrosoft
          (User.findOrCreateFromMicrosoft db t1 p ut).2 t2 p ut).2).users.filter
          (fun u => u.microsoft_id == some p.id)).length = 1
      ∧ User.findByMicrosoftId
          (User.findOrCreateFromMicrosoft
            (User.findOrCreateFromMicrosoft db t1 p ut).2 t2 p ut).2 p.id
          = some { u1 with last_login := some t2 }
      ∧ u1.last_login = some t1 ∧ t1 ≤ t2 := by
  have hnone : db.users.find? (fun u => u.microsoft_id == some p.id) = none :=
    List.find?_eq_none.mpr (fun u hu => by simp [hfresh u hu])
  have hidnone : db.users.find? (fun u => u.id == db.nextUserId) = none :=
    List.find?_eq_none.mpr (fun u hu => by simp [Nat.ne_of_lt (hids u hu)])
  have hr1 : User.findOrCreateFromMicrosoft db t1 p ut =
      (some (msCreatedUser db t1 p ut),
       { db with users := db.users ++ [msCreatedUser db t1 p ut],
                 nextUserId := db.nextUserId + 1 }) := by
    unfold User.findOrCreateFromMicrosoft User.findByMicrosoftId User.create User.findById
    simp only [hnone]
    rw [List.find?_append, hidnone]
    simp [msCreatedUser]
  have hms2 : (db.users ++ [msCreatedUser db t1 p ut]).find?
      (fun u => u.microsoft_id == some p.id) = some (msCreatedUser db t1 p ut) := by
    rw [List.find?_append, hnone]
    simp [msCreatedUser]
  have hr2 : User.findOrCreateFromMicrosoft
      (User.findOrCreateFromMicrosoft db t1 p ut).2 t2 p ut =
      (some (msCreatedUser db t1 p ut),
       User.updateLastLogin (User.findOrCreateFromMicrosoft db t1 p ut).2 t2 db.nextUserId) := by
    rw [hr1]
    unfold User.findOrCreateFromMicrosoft User.findByMicrosoftId
    simp only [hms2]
    rfl
  have hmap : ((User.findOrCreateFromMicrosoft db t1 p ut).2).users.map
      (fun u => if u.id == db.nextUserId then { u with last_login := some t2 } else u)
      = db.users ++ [{ msCreatedUser db t1 p ut with last_login := some t2 }] := by
    rw [hr1]
    rw [List.map_append]
    congr 1
    · refine (List.map_congr_left (fun u hu => ?_)).trans (List.map_id _)
      rw [if_neg (by simp [Nat.ne_of_lt (hids u hu)])]
      rfl
    · simp [msCreatedUser]
  have hfinal : (User.findOrCreateFromMicrosoft
      (User.findOrCreateFromMicrosoft db t1 p ut).2 t2 p ut).2.users
      = db.users ++ [{ msCreatedUser db t1 p ut with last_login := some t2 }] := by
    rw [hr2]
    exact hmap
  have hfilold : db.users.filter (fun u => u.microsoft_id == some p.id) = [] :=
    List.filter_eq_nil_iff.mpr (fun u hu => by simp [hfresh u hu])
  refine ⟨msCreatedUser db t1 p ut, by rw [hr1], by rw [hr2], ?_, ?_, rfl, hmono⟩
  · rw [hfinal, List.filter_append, hfilold]
    simp [msCreatedUser]
  · unfold User.findByMicrosoftId
    rw [hfinal, List.find?_append, hnone]
    simp [msCreatedUser]

/-- Witness for C4: two sign-ins of `sampleProfile` on the empty store at
times 3 and 4. -/
theorem C4_witness :
    ∃ u1,
      (User.findOrCreateFromMicrosoft emptyDB 3 sampleProfile ("current")).1 = some u1
      ∧ (User.findOrCreateFromMicrosoft
          (User.findOrCreateFromMicrosoft emptyDB 3 sampleProfile ("current")).2
          4 sampleProfile ("current")).1 = some u1
      ∧ (((User.findOrCreateFromMicrosoft
          (User.findOrCreateFromMicrosoft emptyDB 3 sampleProfile ("current")).2
          4 sampleProfile ("current")).2).users.filter
          (fun u => u.microsoft_id == some sampleProfile.id)).length = 1
      ∧ User.findByMicrosoftId
          (User.findOrCreateFromMicrosoft
            (User.findOrCreateFromMicrosoft emptyDB 3 sampleProfile ("current")).2
            4 sampleProfile ("current")).2 sampleProfile.id
          = some { u1 with last_login := some 4 }
      ∧ u1.last_login = some 3 ∧ 3 ≤ 4 :=
  C4_findOrCreate_idempotent emptyDB sampleProfile ("current") 3 4 (by decide)
    (by decide) (by decide)

/-- C7: immediately after a successful `create` returning course `c`,
`findByCode c.course_code` returns a record equal to `c` (the row that was
re-read from the store by its generated id). -/
theorem C7_findByCode_after_create (db : DB) (now : Nat) (d : CourseData) (c : Course)
    (hids : ∀ x ∈ db.courses, x.id < db.nextCourseId)
    (h : (Course.create db now d).1 = Except.ok (some c)) :
    Course.findByCode (Course.create db now d).2 c.course_code = some c := by
  cases hval : (strFalsy d.course_code || strFalsy d.course_name || strFalsy d.department) with
  | true =>
    simp [Course.create, hval] at h
  | false =>
    cases hany : db.courses.any (fun x => x.course_code == d.course_code.getD ("")) with
    | true =>
      simp [Course.create, hval, hany] at h
    | false =>
      have hidnone : db.courses.find? (fun x => x.id == db.nextCourseId) = none :=
        List.find?_eq_none.mpr (fun x hx => by simp [Nat.ne_of_lt (hids x hx)])
      have hfind : (db.courses ++ [createdCourse db now d]).find?
          (fun x => x.id == db.nextCourseId) = some (createdCourse db now d) := by
        rw [List.find?_append, hidnone]
        simp [createdCourse]
      have hcreate : Course.create db now d =
          (Except.ok ((db.courses ++ [createdCourse db now d]).find?
              (fun x => x.id == db.nextCourseId)),
           { db with courses := db.courses ++ [createdCourse db now d],
                     nextCourseId := db.nextCourseId + 1 }) := by
        rw [Course.create.eq_def]
        rw [hval, hany]
        simp [Course.findById, createdCourse]
      rw [hcreate] at h
      rw [hfind] at h
      have hc : c = createdCourse db now d := by
        injection h with h2
        injection h2 with h3
        exact h3.symm
      subst hc
      rw [hcreate]
      have hcodes : ∀ x ∈ db.courses,
          (x.course_code == (createdCourse db now d).course_code) = false := by
        intro x hx
        by_contra hcontra
        simp only [Bool.not_eq_false] at hcontra
        have hcontr2 : db.courses.any
            (fun y => y.course_code == d.course_code.getD ("")) = true :=
          List.any_eq_true.mpr ⟨x, hx, hcontra⟩
        rw [hany] at hcontr2
        exact Bool.false_ne_true hcontr2
      have hcn : db.courses.find?
          (fun x => x.course_code == (createdCourse db now d).course_code) = none :=
        List.find?_eq_none.mpr (fun x hx => by simp [hcodes x hx])
      show (db.courses ++ [createdCourse db now d]).find?
          (fun x => x.course_code == (createdCourse db now d).course_code)
        = some (createdCourse db now d)
      rw [List.find?_append, hcn]
      simp

/-- Witness for C7: a valid payload on the empty store; `findByCode` on the
created code returns the created row. -/
theorem C7_witness :
    Course.findByCode (Course.create emptyDB 7 sampleCourseData).2
      (createdCourse emptyDB 7 sampleCourseData).course_code
      = some (createdCourse emptyDB 7 sampleCourseData) :=
  C7_findByCode_after_create emptyDB 7 sampleCourseData
    (createdCourse emptyDB 7 sampleCourseData) (by decide) (by rfl)

/-- C6 (amended): for every keyword free of the `LIKE` wildcards `%` and
`_`, `search` returns exactly the courses in which the keyword appears
case-insensitively as a substring of `course_code`, `course_name` or
`description` (OR of the three tests), ordered by `course_code` ascending. -/
theorem C6_search_substring (db : DB) (kw : String)
    (hw : ∀ ch ∈ kw.data, ch ≠ '%' ∧ ch ≠ '_') :
    (∀ c : Course, c ∈ Course.search db kw ↔
      c ∈ db.courses ∧ (specSubstringMatch kw (some c.course_code) ∨
        specSubstringMatch kw (some c.course_name) ∨ specSubstringMatch kw c.description))
    ∧ List.Sorted codeLe (Course.search db kw) := by
  constructor
  · intro c
    unfold Course.search
    rw [(List.perm_insertionSort codeLe _).mem_iff]
    rw [List.mem_filter]
    simp only [Bool.or_eq_true, likeField_eq_spec kw hw, or_assoc]
  · haveI : IsTotal Course codeLe :=
      ⟨fun a b => charListLe_total a.course_code.data b.course_code.data⟩
    haveI : IsTrans Course codeLe :=
      ⟨fun a b c hab hbc => charListLe_trans _ _ _ hab hbc⟩
    exact List.sorted_insertionSort codeLe _

/-- Counterexample for C6 as frozen: the keyword "%" is a `LIKE` wildcard,
so `search` returns the course of `dbSearch` although "%" appears as a
substring of none of its three text fields. -/
theorem C6_wildcard_counterexample :
    Course.search dbSearch "%" = [sampleCourse 1 ("A") ("B") ("D") none]
    ∧ ¬ (specSubstringMatch "%" (some (sampleCourse 1 ("A") ("B") ("D") none).course_code)
      ∨ specSubstringMatch "%" (some (sampleCourse 1 ("A") ("B") ("D") none).course_name)
      ∨ specSubstringMatch "%" ((sampleCourse 1 ("A") ("B") ("D") none).description)) := by
  constructor
  · decide
  · simp only [specSubstringMatch, sampleCourse]
    decide

/-- Witness for C6: the wildcard-free keyword "alg" on `dbSearch`. -/
theorem C6_witness :
    (∀ c : Course, c ∈ Course.search dbSearch ("alg") ↔
      c ∈ dbSearch.courses ∧ (specSubstringMatch ("alg") (some c.course_code) ∨
        specSubstringMatch ("alg") (some c.course_name) ∨
        specSubstringMatch ("alg") c.description))
    ∧ List.Sorted codeLe (Course.search dbSearch ("alg")) :=
  C6_search_substring dbSearch ("alg") (by decide)

/-- C1 (amended): for every course present in the store,
`getCourseWithReviews` returns `review_count` equal to the number of review
rows referencing that course, and `average_rating` equal to the mean rating
rounded to one decimal place — except that `average_rating` is absent both
when there are zero reviews and when the ratings sum to zero (the JS
truthiness test `avgRating ? ... : null` on the mean). -/
theorem C1_course_aggregates (db : DB) (cid : Nat) (cw : CourseWithReviews)
    (h : Course.getCourseWithReviews db cid = some cw) :
    cw.review_count = (db.reviews.filter (fun r => r.course_id == cid)).length
    ∧ (cw.average_rating = none ↔
        (db.reviews.filter (fun r => r.course_id == cid)).length = 0
        ∨ ((db.reviews.filter (fun r => r.course_id == cid)).map (fun r => r.rating)).sum = 0)
    ∧ (((db.reviews.filter (fun r => r.course_id == cid)).map (fun r => r.rating)).sum ≠ 0 →
        cw.average_rating = some (roundTo1
          (((((db.reviews.filter (fun r => r.course_id == cid)).map (fun r => r.rating)).sum : Int) : ℚ)
            / ((db.reviews.filter (fun r => r.course_id == cid)).length : ℚ)))) := by
  cases hfindc : Course.findById db cid with
  | none =>
    simp only [Course.getCourseWithReviews, hfindc] at h
    exact absurd h (by simp)
  | some course =>
    simp only [Course.getCourseWithReviews, hfindc] at h
    have hx := Option.some.inj h
    have hlen2 : (List.insertionSort recentFirst (courseJoinedReviews db cid)).length
        = (db.reviews.filter (fun r => r.course_id == cid)).length := by
      rw [(List.perm_insertionSort recentFirst (courseJoinedReviews db cid)).length_eq]
      unfold courseJoinedReviews
      exact List.length_map _ _
    have hsum2 : (List.insertionSort recentFirst (courseJoinedReviews db cid)).foldl
        (fun acc jr => acc + jr.review.rating) 0
        = ((db.reviews.filter (fun r => r.course_id == cid)).map (fun r => r.rating)).sum := by
      have h1 : (List.insertionSort recentFirst (courseJoinedReviews db cid)).foldl
          (fun acc jr => acc + jr.review.rating) 0
          = ((List.insertionSort recentFirst (courseJoinedReviews db cid)).map
              (fun jr => jr.review.rating)).sum := by
        rw [List.sum_eq_foldl, List.foldl_map]
      rw [h1,
        ((List.perm_insertionSort recentFirst (courseJoinedReviews db cid)).map
          (fun jr => jr.review.rating)).sum_eq]
      unfold courseJoinedReviews
      rw [List.map_map]
      rfl
    have hq : ((((List.insertionSort recentFirst (courseJoinedReviews db cid)).foldl
          (fun acc jr => acc + jr.review.rating) 0 : Int) : ℚ)
          / ((List.insertionSort recentFirst (courseJoinedReviews db cid)).length : ℚ) = 0
        ∧ ¬ (List.insertionSort recentFirst (courseJoinedReviews db cid)).length = 0)
        → ((db.reviews.filter (fun r => r.course_id == cid)).map (fun r => r.rating)).sum = 0 := by
      rintro ⟨h0, hne⟩
      rcases div_eq_zero_iff.mp h0 with h1 | h1
      · rw [← hsum2]
        exact_mod_cast h1
      · exact absurd (by exact_mod_cast h1) hne
    have hq2 : ((db.reviews.filter (fun r => r.course_id == cid)).map (fun r => r.rating)).sum = 0
        → (((List.insertionSort recentFirst (courseJoinedReviews db cid)).foldl
          (fun acc jr => acc + jr.review.rating) 0 : Int) : ℚ)
          / ((List.insertionSort recentFirst (courseJoinedReviews db cid)).length : ℚ) = 0 := by
      intro h0
      rw [div_eq_zero_iff]
      left
      exact_mod_cast hsum2.trans h0
    refine ⟨?_, ?_, ?_⟩
    · rw [← hx]
      exact hlen2
    · rw [← hx]
      by_cases hF0 : (db.reviews.filter (fun r => r.course_id == cid)).length = 0
      · have hnotpos :
            ¬ 0 < (List.insertionSort recentFirst (courseJoinedReviews db cid)).length := by
          rw [hlen2]
          omega
        rw [if_neg hnotpos]
        simp [hF0]
      · have hpos : 0 < (List.insertionSort recentFirst (courseJoinedReviews db cid)).length := by
          rw [hlen2]
          omega
        rw [if_pos hpos]
        by_cases hq0 : (((List.insertionSort recentFirst (courseJoinedReviews db cid)).foldl
            (fun acc jr => acc + jr.review.rating) 0 : Int) : ℚ)
            / ((List.insertionSort recentFirst (courseJoinedReviews db cid)).length : ℚ) = 0
        · simp only [Option.some_bind]
          rw [if_pos hq0]
          exact iff_of_true rfl (Or.inr (hq ⟨hq0, by omega⟩))
        · simp only [Option.some_bind]
          rw [if_neg hq0]
          refine iff_of_false (by simp) ?_
          rintro (h0 | h0)
          · exact hF0 h0
          · exact hq0 (hq2 h0)
    · intro hS
      rw [← hx]
      have hF0 : (db.reviews.filter (fun r => r.course_id == cid)).length ≠ 0 := by
        intro h0
        apply hS
        rw [List.length_eq_zero] at h0
        rw [h0]
        simp
      have hpos : 0 < (List.insertionSort recentFirst (courseJoinedReviews db cid)).length := by
        rw [hlen2]
        omega
      rw [if_pos hpos]
      simp only [Option.some_bind]
      have hq0 : ¬ ((((List.insertionSort recentFirst (courseJoinedReviews db cid)).foldl
          (fun acc jr => acc + jr.review.rating) 0 : Int) : ℚ)
          / ((List.insertionSort recentFirst (courseJoinedReviews db cid)).length : ℚ) = 0) :=
        fun hc => hS (hq ⟨hc, by omega⟩)
      rw [if_neg hq0]
      rw [hsum2, hlen2]

/-- Counterexample for C1 as frozen: in `dbRatings`, course 1 has exactly one
review (with rating 0), yet `average_rating` is absent — JS truthiness
publishes a zero mean as `null`, so absence is not equivalent to having zero
reviews. -/
theorem C1_zero_mean_counterexample :
    (Course.getCourseWithReviews dbRatings 1).map
      (fun cw => (cw.review_count, cw.average_rating)) = some (1, none) := by
  simp [Course.getCourseWithReviews, Course.findById, dbRatings, emptyDB, sampleCourse,
    sampleReview, courseJoinedReviews, joinedProfessorName, roundTo1]

/-- Witness for C1: the zero-review course 2 of `dbRatings`. -/
theorem C1_witness :
    ({ course := sampleCourse 2 ("ARTS 1000") ("Painting") ("ARTS") none, reviews := []
       review_count := 0, average_rating := none } : CourseWithReviews).review_count
        = (dbRatings.reviews.filter (fun r => r.course_id == 2)).length
    ∧ (({ course := sampleCourse 2 ("ARTS 1000") ("Painting") ("ARTS") none, reviews := []
          review_count := 0, average_rating := none } : CourseWithReviews).average_rating = none ↔
        (dbRatings.reviews.filter (fun r => r.course_id == 2)).length = 0
        ∨ ((dbRatings.reviews.filter (fun r => r.course_id == 2)).map (fun r => r.rating)).sum = 0)
    ∧ (((dbRatings.reviews.filter (fun r => r.course_id == 2)).map (fun r => r.rating)).sum ≠ 0 →
        ({ course := sampleCourse 2 ("ARTS 1000") ("Painting") ("ARTS") none, reviews := []
           review_count := 0, average_rating := none } : CourseWithReviews).average_rating
          = some (roundTo1
          (((((dbRatings.reviews.filter (fun r => r.course_id == 2)).map (fun r => r.rating)).sum : Int) : ℚ)
            / ((dbRatings.reviews.filter (fun r => r.course_id == 2)).length : ℚ)))) :=
  C1_course_aggregates dbRatings 2
    { course := sampleCourse 2 ("ARTS 1000") ("Painting") ("ARTS") none, reviews := []
      review_count := 0, average_rating := none } (by rfl)

end DegreeDash
